import Mathlib

/-!
# Verification of the bitFlyer Lightning API client

A shallow embedding of the Go client in `bitflyer.go` (and, for comparison,
the older variant client kept alongside it), together with theorems about
its request signing, defaulting, decoding and error propagation behaviour.

Bytes are modelled as `Nat` values below 256 in a `List`; Go strings (which
hold UTF-8 bytes) become Lean `String`s, converted to bytes by UTF-8
encoding, matching Go's `[]byte(s)` conversion.
-/

namespace Bitflyer

/-! ## SHA-256 over byte lists

A direct executable implementation of FIPS 180-4 SHA-256, used by the
embedding of `computeHmac256` (Go: `crypto/sha256` + `crypto/hmac`).
Words are `Nat`s reduced modulo `2^32`. -/

/-- Reduce to a 32-bit word. -/
def w32 (x : Nat) : Nat := x % 4294967296

/-- Rotate a 32-bit word right by `n`. -/
def rotr (n x : Nat) : Nat := w32 ((x >>> n) ||| (x <<< (32 - n)))

/-- SHA-256 big sigma 0. -/
def bsig0 (x : Nat) : Nat := (rotr 2 x) ^^^ (rotr 13 x) ^^^ (rotr 22 x)

/-- SHA-256 big sigma 1. -/
def bsig1 (x : Nat) : Nat := (rotr 6 x) ^^^ (rotr 11 x) ^^^ (rotr 25 x)

/-- SHA-256 small sigma 0. -/
def ssig0 (x : Nat) : Nat := (rotr 7 x) ^^^ (rotr 18 x) ^^^ (x >>> 3)

/-- SHA-256 small sigma 1. -/
def ssig1 (x : Nat) : Nat := (rotr 17 x) ^^^ (rotr 19 x) ^^^ (x >>> 10)

/-- SHA-256 choice function; the complement is taken within 32 bits. -/
def chF (x y z : Nat) : Nat := (x &&& y) ^^^ ((x ^^^ 4294967295) &&& z)

/-- SHA-256 majority function. -/
def majF (x y z : Nat) : Nat := (x &&& y) ^^^ (x &&& z) ^^^ (y &&& z)

/-- The 64 SHA-256 round constants. -/
def K : List Nat :=
  [1116352408, 1899447441, 3049323471, 3921009573,
   961987163, 1508970993, 2453635748, 2870763221,
   3624381080, 310598401, 607225278, 1426881987,
   1925078388, 2162078206, 2614888103, 3248222580,
   3835390401, 4022224774, 264347078, 604807628,
   770255983, 1249150122, 1555081692, 1996064986,
   2554220882, 2821834349, 2952996808, 3210313671,
   3336571891, 3584528711, 113926993, 338241895,
   666307205, 773529912, 1294757372, 1396182291,
   1695183700, 1986661051, 2177026350, 2456956037,
   2730485921, 2820302411, 3259730800, 3345764771,
   3516065817, 3600352804, 4094571909, 275423344,
   430227734, 506948616, 659060556, 883997877,
   958139571, 1322822218, 1537002063, 1747873779,
   1955562222, 2024104815, 2227730452, 2361852424,
   2428436474, 2756734187, 3204031479, 3329325298]

/-- The 8 initial SHA-256 hash values. -/
def H0 : List Nat :=
  [1779033703, 3144134277, 1013904242, 2773480762,
   1359893119, 2600822924, 528734635, 1541459225]

/-- The `n` bytes of `v`, most significant byte first. -/
def toBytesBE : Nat → Nat → List Nat
  | 0, _ => []
  | n + 1, v => toBytesBE n (v / 256) ++ [v % 256]

/-- SHA-256 padding: append `0x80`, zeros, then the 64-bit big-endian
bit length, reaching a multiple of 64 bytes. -/
def padMessage (msg : List Nat) : List Nat :=
  let L := msg.length
  let z := (120 - ((L + 1) % 64)) % 64
  msg ++ [128] ++ List.replicate z 0 ++ toBytesBE 8 (8 * L)

/-- Split a byte list into 64-byte chunks. -/
def toChunks64 : List Nat → List (List Nat)
  | [] => []
  | x :: xs => ((x :: xs).take 64) :: toChunks64 ((x :: xs).drop 64)
termination_by l => l.length
decreasing_by simp [List.length_drop]; omega

/-- Pack bytes into 32-bit words, big-endian. -/
def toWordsBE : List Nat → List Nat
  | a :: b :: c :: d :: rest =>
    ((a <<< 24) ||| (b <<< 16) ||| (c <<< 8) ||| d) :: toWordsBE rest
  | _ => []

/-- The next word of the SHA-256 message schedule, from the words so far. -/
def nextW (acc : List Nat) : Nat :=
  let n := acc.length
  w32 (ssig1 (acc.getD (n - 2) 0) + acc.getD (n - 7) 0 +
       ssig0 (acc.getD (n - 15) 0) + acc.getD (n - 16) 0)

/-- Extend 16 words to the 64-word SHA-256 message schedule. -/
def msgSchedule (ws : List Nat) : List Nat :=
  (List.range 48).foldl (fun acc _ => acc ++ [nextW acc]) ws

/-- The eight SHA-256 working variables. -/
structure SHAState where
  a : Nat
  b : Nat
  c : Nat
  d : Nat
  e : Nat
  f : Nat
  g : Nat
  h : Nat

/-- One SHA-256 compression round. -/
def sha256Round (s : SHAState) (k w : Nat) : SHAState :=
  let t1 := w32 (s.h + bsig1 s.e + chF s.e s.f s.g + k + w)
  let t2 := w32 (bsig0 s.a + majF s.a s.b s.c)
  ⟨w32 (t1 + t2), s.a, s.b, s.c, w32 (s.d + t1), s.e, s.f, s.g⟩

/-- Compress one 64-byte block into the running hash (8 words). -/
def sha256Compress (hs : List Nat) (block : List Nat) : List Nat :=
  let ws := msgSchedule (toWordsBE block)
  let s0 : SHAState :=
    ⟨hs.getD 0 0, hs.getD 1 0, hs.getD 2 0, hs.getD 3 0,
     hs.getD 4 0, hs.getD 5 0, hs.getD 6 0, hs.getD 7 0⟩
  let s := (K.zip ws).foldl (fun st kw => sha256Round st kw.1 kw.2) s0
  [w32 (hs.getD 0 0 + s.a), w32 (hs.getD 1 0 + s.b),
   w32 (hs.getD 2 0 + s.c), w32 (hs.getD 3 0 + s.d),
   w32 (hs.getD 4 0 + s.e), w32 (hs.getD 5 0 + s.f),
   w32 (hs.getD 6 0 + s.g), w32 (hs.getD 7 0 + s.h)]

/-- SHA-256 of a byte list, as the 32 digest bytes. -/
def sha256 (msg : List Nat) : List Nat :=
  let hs := (toChunks64 (padMessage msg)).foldl sha256Compress H0
  (hs.map (toBytesBE 4)).flatten

/-- HMAC-SHA256 (RFC 2104): block size 64 bytes; a longer key is hashed
first, then zero-padded; inner pad byte `0x36`, outer pad byte `0x5c`. -/
def hmacSha256 (key msg : List Nat) : List Nat :=
  let k0 := if 64 < key.length then sha256 key else key
  let k1 := k0 ++ List.replicate (64 - k0.length) 0
  let ipadKey := k1.map (fun b => b ^^^ 54)
  let opadKey := k1.map (fun b => b ^^^ 92)
  sha256 (opadKey ++ sha256 (ipadKey ++ msg))

/-- Lowercase hexadecimal digit for `n < 16`. -/
def hexDigit (n : Nat) : Char :=
  if n < 10 then Char.ofNat (48 + n) else Char.ofNat (87 + n)

/-- Lowercase hexadecimal encoding of a byte list
(Go: `hex.EncodeToString`). -/
def hexEncode (bs : List Nat) : String :=
  String.mk (bs.foldr (fun b acc => hexDigit (b / 16) :: hexDigit (b % 16) :: acc) [])

/-- The UTF-8 bytes of a string (Go: `[]byte(s)`). -/
def strBytes (s : String) : List Nat :=
  s.toUTF8.toList.map (fun b => b.toNat)

/-- Go `computeHmac256` (bitflyer.go lines 200-205): lowercase-hex
HMAC-SHA256 of the message, keyed by the secret's bytes. -/
def computeHmac256 (message : String) (secret : String) : String :=
  hexEncode (hmacSha256 (strBytes secret) (strBytes message))

/-! ## JSON values

Response bodies and the serialized order body are modelled at the level of
JSON values. Go's `float64` JSON numbers are modelled as exact rationals:
`encoding/json` round-trips every finite `float64` exactly (shortest
round-tripping decimal), and the non-finite values are not marshalable. -/

/-- A JSON value. -/
inductive Json where
  | null : Json
  | bool (b : Bool) : Json
  | num (q : Rat) : Json
  | str (s : String) : Json
  | arr (xs : List Json) : Json
  | obj (fields : List (String × Json)) : Json

/-- Render a JSON number. Integer values print as Go does; the non-integer
case is an abstract stand-in for Go's float formatting (every number the
client itself serializes with a fixed denominator is an integer). -/
def renderNum (q : Rat) : String :=
  if q.den = 1 then toString q.num else toString q.num ++ "e" ++ toString q.den

/-- Escape a character for a JSON string literal (quote and backslash). -/
def escapeChar (c : Char) : String :=
  if c = '"' then "\\\"" else if c = '\\' then "\\\\" else String.singleton c

/-- Escape a string for a JSON string literal. -/
def escapeString (s : String) : String :=
  String.join (s.data.map escapeChar)

mutual

/-- Serialize a JSON value to text (Go: `json.Marshal`). -/
def Json.render : Json → String
  | .null => "null"
  | .bool true => "true"
  | .bool false => "false"
  | .num q => renderNum q
  | .str s => "\"" ++ escapeString s ++ "\""
  | .arr xs => "[" ++ Json.renderList xs ++ "]"
  | .obj fs => "\x7b" ++ Json.renderObj fs ++ "\x7d"

/-- Serialize a JSON array's elements, comma-separated. -/
def Json.renderList : List Json → String
  | [] => ""
  | [x] => x.render
  | x :: y :: rest => x.render ++ "," ++ Json.renderList (y :: rest)

/-- Serialize a JSON object's fields, comma-separated. -/
def Json.renderObj : List (String × Json) → String
  | [] => ""
  | [(k, v)] => "\"" ++ escapeString k ++ "\":" ++ v.render
  | (k, v) :: y :: rest =>
    "\"" ++ escapeString k ++ "\":" ++ v.render ++ "," ++ Json.renderObj (y :: rest)

end

/-- The fields of a JSON object (empty for non-objects). -/
def Json.fields : Json → List (String × Json)
  | .obj fs => fs
  | _ => []

/-- Look up a key in a JSON object's field list (first occurrence). -/
def jlookup (k : String) : List (String × Json) → Option Json
  | [] => none
  | (k', v) :: rest => if k' = k then some v else jlookup k rest

/-- Look up a key in a string/string association list (first occurrence). -/
def slookup (k : String) : List (String × String) → Option String
  | [] => none
  | (k', v) :: rest => if k' = k then some v else slookup k rest

/-- Test `leadsWith pat s`: the character list `pat` is an initial segment of
the character list `s` (used to state "includes the leading slash" and
"excludes the host" about paths). -/
def leadsWith : List Char → List Char → Bool
  | [], _ => true
  | _ :: _, [] => false
  | a :: as, b :: bs => a == b && leadsWith as bs

/-! ## Errors

Go reports all failures through the `error` interface; the spec classifies
them into kinds, which the constructors below reflect: `requestFailure` for
the `requestError(...)` wrapper around transport and body-read failures,
`decodeFailure` for `json.Unmarshal` errors returned unchanged, and
`exchangeFailure` for the `errors.New(newOrder.ErrorMessage)` raised by
`NewOrder` on a non-empty decoded error message. -/

/-- An error returned by the client, by kind. -/
inductive BFError where
  | requestFailure (msg : String) : BFError
  | decodeFailure (msg : String) : BFError
  | exchangeFailure (msg : String) : BFError
deriving DecidableEq, Repr

/-- Go `requestError` (bitflyer.go lines 207-209):
`fmt.Errorf("Could not execute request! (%s)", err)`. -/
def requestError (err : String) : BFError :=
  .requestFailure ("Could not execute request! (" ++ err ++ ")")

/-! ## Response record types (bitflyer.go lines 31-82) -/

/-- Go `AskBid`: one order-book level. -/
structure AskBid where
  Price : Rat
  Size : Rat
deriving DecidableEq, Repr

/-- Go `OrderBook`. -/
structure OrderBook where
  MidPrice : Rat
  Bids : List AskBid
  Asks : List AskBid
deriving DecidableEq, Repr

/-- Go `Balance`: one currency's balance. -/
structure Balance where
  CurrencyCode : String
  Amount : Rat
  Available : Rat
deriving DecidableEq, Repr

/-- Go `AssetBalance`: a list of balances. -/
abbrev AssetBalance := List Balance

/-- Go `Ticker`. -/
structure Ticker where
  ProductCode : String
  Timestamp : String
  TickID : Int
  BestBid : Rat
  BestAsk : Rat
  BestBidSize : Rat
  BestAskSize : Rat
  TotalBidDepth : Rat
  TotalAskDepth : Rat
  LTP : Rat
  Volume : Rat
  VolumeByProduct : Rat
deriving DecidableEq, Repr

/-- Go `Order`: a child order request/response. -/
structure Order where
  ChildOrderAcceptanceID : String
  ProductCode : String
  ChildOrderType : String
  Side : String
  Price : Rat
  Size : Rat
  MinuteToExpires : Int
  TimeInForce : String
  Status : Int
  ErrorMessage : String
deriving DecidableEq, Repr

/-- Go `json.Marshal` of an `Order`: all ten fields, in declaration order,
under their struct-tag names (no `omitempty`). -/
def orderToJson (o : Order) : Json :=
  .obj [("child_order_acceptance_id", .str o.ChildOrderAcceptanceID),
        ("product_code", .str o.ProductCode),
        ("child_order_type", .str o.ChildOrderType),
        ("side", .str o.Side),
        ("price", .num o.Price),
        ("size", .num o.Size),
        ("minute_to_expire", .num (o.MinuteToExpires : Rat)),
        ("time_in_force", .str o.TimeInForce),
        ("status", .num (o.Status : Rat)),
        ("error_message", .str o.ErrorMessage)]

/-! ## JSON decoding (Go: `json.Unmarshal`)

`json.Unmarshal` into an existing struct value MERGES: it walks the JSON
object's entries in order, sets each field whose struct-tag key matches,
ignores unknown keys, treats `null` as a no-op for these field types, and
errors on a value of the wrong type. Keys absent from the JSON leave the
prior field value in place. Decoding stops the call with an error on the
first ill-typed value (Go records the error; the client treats any decode
error as failure, so the difference is unobservable here). -/

/-- Decode a JSON value into a string field, keeping `old` on `null`. -/
def decStrField (v : Json) (old : String) : Except String String :=
  match v with
  | .str s => .ok s
  | .null => .ok old
  | _ => .error "json: cannot unmarshal value into field of type string"

/-- Decode a JSON value into a float64 field, keeping `old` on `null`. -/
def decNumField (v : Json) (old : Rat) : Except String Rat :=
  match v with
  | .num q => .ok q
  | .null => .ok old
  | _ => .error "json: cannot unmarshal value into field of type float64"

/-- Decode a JSON value into an int field, keeping `old` on `null`;
a fractional number is a type error. -/
def decIntField (v : Json) (old : Int) : Except String Int :=
  match v with
  | .num q => if q.den = 1 then .ok q.num
              else .error "json: cannot unmarshal number into field of type int"
  | .null => .ok old
  | _ => .error "json: cannot unmarshal value into field of type int"

/-- Apply one JSON object entry to an `Order` (unknown keys ignored). -/
def applyOrderField (o : Order) (k : String) (v : Json) : Except String Order :=
  if k = "child_order_acceptance_id" then
    match decStrField v o.ChildOrderAcceptanceID with
    | .error e => .error e
    | .ok s => .ok { o with ChildOrderAcceptanceID := s }
  else if k = "product_code" then
    match decStrField v o.ProductCode with
    | .error e => .error e
    | .ok s => .ok { o with ProductCode := s }
  else if k = "child_order_type" then
    match decStrField v o.ChildOrderType with
    | .error e => .error e
    | .ok s => .ok { o with ChildOrderType := s }
  else if k = "side" then
    match decStrField v o.Side with
    | .error e => .error e
    | .ok s => .ok { o with Side := s }
  else if k = "price" then
    match decNumField v o.Price with
    | .error e => .error e
    | .ok q => .ok { o with Price := q }
  else if k = "size" then
    match decNumField v o.Size with
    | .error e => .error e
    | .ok q => .ok { o with Size := q }
  else if k = "minute_to_expire" then
    match decIntField v o.MinuteToExpires with
    | .error e => .error e
    | .ok n => .ok { o with MinuteToExpires := n }
  else if k = "time_in_force" then
    match decStrField v o.TimeInForce with
    | .error e => .error e
    | .ok s => .ok { o with TimeInForce := s }
  else if k = "status" then
    match decIntField v o.Status with
    | .error e => .error e
    | .ok n => .ok { o with Status := n }
  else if k = "error_message" then
    match decStrField v o.ErrorMessage with
    | .error e => .error e
    | .ok s => .ok { o with ErrorMessage := s }
  else .ok o

/-- Merge a JSON object's entries, in order, into an `Order`. -/
def orderMergeFields (o : Order) : List (String × Json) → Except String Order
  | [] => .ok o
  | (k, v) :: rest =>
    match applyOrderField o k v with
    | .error e => .error e
    | .ok o' => orderMergeFields o' rest

/-- Go `json.Unmarshal` of a JSON value into an existing `Order`. -/
def orderUnmarshal (o : Order) (j : Json) : Except String Order :=
  match j with
  | .obj fs => orderMergeFields o fs
  | .null => .ok o
  | _ => .error "json: cannot unmarshal value into Go value of type bitflyer.Order"

/-- Apply one JSON object entry to an `AskBid`. -/
def applyAskBidField (a : AskBid) (k : String) (v : Json) : Except String AskBid :=
  if k = "price" then
    match decNumField v a.Price with
    | .error e => .error e
    | .ok q => .ok { a with Price := q }
  else if k = "size" then
    match decNumField v a.Size with
    | .error e => .error e
    | .ok q => .ok { a with Size := q }
  else .ok a

/-- Merge a JSON object's entries into an `AskBid`. -/
def askBidMergeFields (a : AskBid) : List (String × Json) → Except String AskBid
  | [] => .ok a
  | (k, v) :: rest =>
    match applyAskBidField a k v with
    | .error e => .error e
    | .ok a' => askBidMergeFields a' rest

/-- Go `json.Unmarshal` of a JSON value into an existing `AskBid`. -/
def askBidUnmarshal (a : AskBid) (j : Json) : Except String AskBid :=
  match j with
  | .obj fs => askBidMergeFields a fs
  | .null => .ok a
  | _ => .error "json: cannot unmarshal value into Go value of type bitflyer.AskBid"

/-- Go `json.Unmarshal` of a JSON array into a `[]AskBid`: a fresh slice whose
elements decode into zero-valued `AskBid`s; `null` keeps the old slice. -/
def askBidListUnmarshal (old : List AskBid) (j : Json) : Except String (List AskBid) :=
  match j with
  | .arr xs => xs.mapM (askBidUnmarshal ⟨0, 0⟩)
  | .null => .ok old
  | _ => .error "json: cannot unmarshal value into Go value of type []bitflyer.AskBid"

/-- Apply one JSON object entry to an `OrderBook`. -/
def applyOrderBookField (b : OrderBook) (k : String) (v : Json) : Except String OrderBook :=
  if k = "mid_price" then
    match decNumField v b.MidPrice with
    | .error e => .error e
    | .ok q => .ok { b with MidPrice := q }
  else if k = "bids" then
    match askBidListUnmarshal b.Bids v with
    | .error e => .error e
    | .ok xs => .ok { b with Bids := xs }
  else if k = "asks" then
    match askBidListUnmarshal b.Asks v with
    | .error e => .error e
    | .ok xs => .ok { b with Asks := xs }
  else .ok b

/-- Merge a JSON object's entries into an `OrderBook`. -/
def orderBookMergeFields (b : OrderBook) : List (String × Json) → Except String OrderBook
  | [] => .ok b
  | (k, v) :: rest =>
    match applyOrderBookField b k v with
    | .error e => .error e
    | .ok b' => orderBookMergeFields b' rest

/-- Go `json.Unmarshal` of a JSON value into an existing `OrderBook`. -/
def orderBookUnmarshal (b : OrderBook) (j : Json) : Except String OrderBook :=
  match j with
  | .obj fs => orderBookMergeFields b fs
  | .null => .ok b
  | _ => .error "json: cannot unmarshal value into Go value of type bitflyer.OrderBook"

/-- Apply one JSON object entry to a `Balance`. -/
def applyBalanceField (b : Balance) (k : String) (v : Json) : Except String Balance :=
  if k = "currency_code" then
    match decStrField v b.CurrencyCode with
    | .error e => .error e
    | .ok s => .ok { b with CurrencyCode := s }
  else if k = "amount" then
    match decNumField v b.Amount with
    | .error e => .error e
    | .ok q => .ok { b with Amount := q }
  else if k = "available" then
    match decNumField v b.Available with
    | .error e => .error e
    | .ok q => .ok { b with Available := q }
  else .ok b

/-- Merge a JSON object's entries into a `Balance`. -/
def balanceMergeFields (b : Balance) : List (String × Json) → Except String Balance
  | [] => .ok b
  | (k, v) :: rest =>
    match applyBalanceField b k v with
    | .error e => .error e
    | .ok b' => balanceMergeFields b' rest

/-- Go `json.Unmarshal` of a JSON value into an existing `Balance`. -/
def balanceUnmarshal (b : Balance) (j : Json) : Except String Balance :=
  match j with
  | .obj fs => balanceMergeFields b fs
  | .null => .ok b
  | _ => .error "json: cannot unmarshal value into Go value of type bitflyer.Balance"

/-- Go `json.Unmarshal` of a JSON array into an `AssetBalance` (`[]Balance`). -/
def assetBalanceUnmarshal (old : AssetBalance) (j : Json) : Except String AssetBalance :=
  match j with
  | .arr xs => xs.mapM (balanceUnmarshal ⟨"", 0, 0⟩)
  | .null => .ok old
  | _ => .error "json: cannot unmarshal value into Go value of type bitflyer.AssetBalance"

/-- Apply one JSON object entry to a `Ticker`. -/
def applyTickerField (t : Ticker) (k : String) (v : Json) : Except String Ticker :=
  if k = "product_code" then
    match decStrField v t.ProductCode with
    | .error e => .error e
    | .ok s => .ok { t with ProductCode := s }
  else if k = "timestamp" then
    match decStrField v t.Timestamp with
    | .error e => .error e
    | .ok s => .ok { t with Timestamp := s }
  else if k = "tick_id" then
    match decIntField v t.TickID with
    | .error e => .error e
    | .ok n => .ok { t with TickID := n }
  else if k = "best_bid" then
    match decNumField v t.BestBid with
    | .error e => .error e
    | .ok q => .ok { t with BestBid := q }
  else if k = "best_ask" then
    match decNumField v t.BestAsk with
    | .error e => .error e
    | .ok q => .ok { t with BestAsk := q }
  else if k = "best_bid_size" then
    match decNumField v t.BestBidSize with
    | .error e => .error e
    | .ok q => .ok { t with BestBidSize := q }
  else if k = "best_ask_size" then
    match decNumField v t.BestAskSize with
    | .error e => .error e
    | .ok q => .ok { t with BestAskSize := q }
  else if k = "total_bid_depth" then
    match decNumField v t.TotalBidDepth with
    | .error e => .error e
    | .ok q => .ok { t with TotalBidDepth := q }
  else if k = "total_ask_depth" then
    match decNumField v t.TotalAskDepth with
    | .error e => .error e
    | .ok q => .ok { t with TotalAskDepth := q }
  else if k = "ltp" then
    match decNumField v t.LTP with
    | .error e => .error e
    | .ok q => .ok { t with LTP := q }
  else if k = "volume" then
    match decNumField v t.Volume with
    | .error e => .error e
    | .ok q => .ok { t with Volume := q }
  else if k = "volume_by_product" then
    match decNumField v t.VolumeByProduct with
    | .error e => .error e
    | .ok q => .ok { t with VolumeByProduct := q }
  else .ok t

/-- Merge a JSON object's entries into a `Ticker`. -/
def tickerMergeFields (t : Ticker) : List (String × Json) → Except String Ticker
  | [] => .ok t
  | (k, v) :: rest =>
    match applyTickerField t k v with
    | .error e => .error e
    | .ok t' => tickerMergeFields t' rest

/-- Go `json.Unmarshal` of a JSON value into an existing `Ticker`. -/
def tickerUnmarshal (t : Ticker) (j : Json) : Except String Ticker :=
  match j with
  | .obj fs => tickerMergeFields t fs
  | .null => .ok t
  | _ => .error "json: cannot unmarshal value into Go value of type bitflyer.Ticker"

/-- Go `json.Unmarshal` on raw response bytes: bytes that are not valid JSON
(modelled as `none`) fail before any shape check. -/
def unmarshal {α : Type} (dec : Json → Except String α) : Option Json → Except String α
  | none => .error "unexpected end of JSON input"
  | some j => dec j

/-! ## Transport client (bitflyer.go lines 17-29, 84-198)

Effects are made explicit: the current unix time is a parameter `now`
(read once per call, where `headers` reads `time.Now()`), and the shared
HTTP transport handle is a `TransportState` threaded through each call.
The state holds a script of prepared transport outcomes — consumed one per
`api.client.Do` invocation — and records every request handed to the
transport, so that "invoked exactly once" and the exact headers attached
are provable facts. -/

/-- Go `URL` constant: the fixed API base URL. -/
def URL : String := "https://api.bitflyer.jp"

/-- Go `minuteToExpire` constant: the default expiry (one year). -/
def minuteToExpire : Int := 525600

/-- Go `timeInForce` constant: the default time-in-force. -/
def timeInForce : String := "GTC"

/-- Go `APIClient`: the credentials (the `*http.Client` handle is modelled
as the `TransportState` threaded through each call). -/
structure APIClient where
  key : String
  secret : String
deriving DecidableEq, Repr

/-- One outcome of `api.client.Do` plus the subsequent body read: either
`Do` itself fails (connection, timeout), or a response arrives carrying a
status code and a body-read result. The read yields the raw bytes,
modelled as parsed JSON (`some j`) or bytes that are not valid JSON
(`none`). -/
inductive TransportResult where
  | doError (msg : String) : TransportResult
  | response (status : Nat) (readResult : Except String (Option Json)) : TransportResult

/-- One HTTP request as handed to the transport. -/
structure HttpRequest where
  method : String
  url : String
  body : String
  reqHeaders : List (String × String)

/-- The transport handle: outcomes still scripted, requests made so far. -/
structure TransportState where
  script : List TransportResult
  requests : List HttpRequest

/-- Go `headers` (bitflyer.go lines 187-198): timestamp is the current unix
time in seconds in decimal (`strconv.Itoa(int(time.Now().Unix()))`,
here `toString now`); the signed message is the plain concatenation
`timestamp + method + uri + body`; the result maps the four header names. -/
def headers (key secret method uri body : String) (now : Int) : List (String × String) :=
  let timestamp := toString now
  let message := timestamp ++ method ++ uri ++ body
  let signature := computeHmac256 message secret
  [("Content-Type", "application/json"),
   ("ACCESS-KEY", key),
   ("ACCESS-TIMESTAMP", timestamp),
   ("ACCESS-SIGN", signature)]

/-- Go `doRequest` (bitflyer.go lines 169-185): build the request against
`URL + endpoint` with the given body and headers, invoke the transport
once, read the full body. The `http.NewRequest` error branch is omitted:
it cannot fire for this client's fixed methods and well-formed URL. -/
def doRequest (method endpoint data : String) (hdrs : List (String × String))
    (st : TransportState) : Except BFError (Option Json) × TransportState :=
  let req : HttpRequest := ⟨method, URL ++ endpoint, data, hdrs⟩
  match st.script with
  | [] => (.error (requestError "no response"), ⟨[], st.requests ++ [req]⟩)
  | r :: rest =>
    let st' : TransportState := ⟨rest, st.requests ++ [req]⟩
    match r with
    | .doError m => (.error (requestError m), st')
    | .response _ (.error m) => (.error (requestError m), st')
    | .response _ (.ok b) => (.ok b, st')

/-- Go `doGetRequest` (bitflyer.go lines 143-154), generic in the target
shape: sign with the real method, path and body, send, decode. -/
def doGetRequest {α : Type} (api : APIClient) (dec : Json → Except String α)
    (endpoint : String) (body : String) (now : Int) (st : TransportState) :
    Except BFError α × TransportState :=
  let hdrs := headers api.key api.secret "GET" endpoint body now
  match doRequest "GET" endpoint body hdrs st with
  | (.error e, st') => (.error e, st')
  | (.ok resp, st') =>
    match unmarshal dec resp with
    | .error m => (.error (.decodeFailure m), st')
    | .ok v => (.ok v, st')

/-- Go `doPostRequest` (bitflyer.go lines 156-167). -/
def doPostRequest {α : Type} (api : APIClient) (dec : Json → Except String α)
    (endpoint : String) (body : String) (now : Int) (st : TransportState) :
    Except BFError α × TransportState :=
  let hdrs := headers api.key api.secret "POST" endpoint body now
  match doRequest "POST" endpoint body hdrs st with
  | (.error e, st') => (.error e, st')
  | (.ok resp, st') =>
    match unmarshal dec resp with
    | .error m => (.error (.decodeFailure m), st')
    | .ok v => (.ok v, st')

/-- Go `GetOrderBook` (bitflyer.go lines 93-100): GET `/v1/getboard` with
empty body, decoding into a zero-valued `OrderBook`. -/
def GetOrderBook (api : APIClient) (now : Int) (st : TransportState) :
    Except BFError OrderBook × TransportState :=
  doGetRequest api (orderBookUnmarshal ⟨0, [], []⟩) "/v1/getboard" "" now st

/-- Go `GetBalance` (bitflyer.go lines 102-109): GET `/v1/me/getbalance`
with empty body, decoding into a zero-valued `AssetBalance`. -/
def GetBalance (api : APIClient) (now : Int) (st : TransportState) :
    Except BFError AssetBalance × TransportState :=
  doGetRequest api (assetBalanceUnmarshal []) "/v1/me/getbalance" "" now st

/-- Go `GetTicker` (bitflyer.go lines 111-118): GET `/v1/getticker` with
empty body, decoding into a zero-valued `Ticker`. -/
def GetTicker (api : APIClient) (now : Int) (st : TransportState) :
    Except BFError Ticker × TransportState :=
  doGetRequest api (tickerUnmarshal ⟨"", "", 0, 0, 0, 0, 0, 0, 0, 0, 0, 0⟩)
    "/v1/getticker" "" now st

/-- Lines 122-128 of `NewOrder`: default the expiry to `minuteToExpire`
when the caller left it `<= 0`, and the time-in-force to `"GTC"` when the
caller left it empty. -/
def orderDefaults (order : Order) : Order :=
  let o1 := if order.MinuteToExpires ≤ 0
            then { order with MinuteToExpires := minuteToExpire } else order
  if o1.TimeInForce = "" then { o1 with TimeInForce := timeInForce } else o1

/-- Go `NewOrder` (bitflyer.go lines 120-141): apply the defaults, marshal
the defaulted order as the POST body, send, decode the response by merging
it onto the defaulted order, then fail with the decoded error message when
it is non-empty. (`json.Marshal` cannot fail on an `Order`, so its error
branch is omitted.) -/
def NewOrder (api : APIClient) (order : Order) (now : Int) (st : TransportState) :
    Except BFError Order × TransportState :=
  let newOrder := orderDefaults order
  let data := Json.render (orderToJson newOrder)
  match doPostRequest api (orderUnmarshal newOrder) "/v1/me/sendchildorder" data now st with
  | (.error e, st') => (.error e, st')
  | (.ok o, st') =>
    if o.ErrorMessage ≠ "" then (.error (.exchangeFailure o.ErrorMessage), st')
    else (.ok o, st')

/-! ## The variant client

The repository also carries an older variant of the client (the unnamed
source file, two near-identical copies). Its `GetOrderBook`/`GetBalance`
pass `URL + path` — the full URL including the host — as the endpoint, and
its `doGetRequest` hands that same string to `headers` as the uri, so the
signer there sees the full URL, not the bare path. Its `doRequest` sends
to `endpoint` directly (no second `URL +`), with a nil request body. -/

namespace Variant

/-- Variant `AskBid` (no struct tags: Go matches exact field names). -/
structure AskBid where
  Price : Rat
  Size : Rat
deriving DecidableEq, Repr

/-- Variant `OrderBook`: `MidPrice` is an `int` in this variant. -/
structure OrderBook where
  MidPrice : Int
  Bids : List AskBid
  Asks : List AskBid
deriving DecidableEq, Repr

/-- Variant `Balance`. -/
structure Balance where
  CurrencyCode : String
  Amount : Rat
  Available : Rat
deriving DecidableEq, Repr

/-- Apply one JSON object entry to a variant `AskBid` (field-name keys). -/
def applyAskBidField (a : AskBid) (k : String) (v : Json) : Except String AskBid :=
  if k = "Price" then
    match decNumField v a.Price with
    | .error e => .error e
    | .ok q => .ok { a with Price := q }
  else if k = "Size" then
    match decNumField v a.Size with
    | .error e => .error e
    | .ok q => .ok { a with Size := q }
  else .ok a

/-- Merge a JSON object's entries into a variant `AskBid`. -/
def askBidMergeFields (a : AskBid) : List (String × Json) → Except String AskBid
  | [] => .ok a
  | (k, v) :: rest =>
    match applyAskBidField a k v with
    | .error e => .error e
    | .ok a' => askBidMergeFields a' rest

/-- Go `json.Unmarshal` into an existing variant `AskBid`. -/
def askBidUnmarshal (a : AskBid) (j : Json) : Except String AskBid :=
  match j with
  | .obj fs => askBidMergeFields a fs
  | .null => .ok a
  | _ => .error "json: cannot unmarshal value into Go value of type bitflyer.AskBid"

/-- Go `json.Unmarshal` of a JSON array into a variant `[]AskBid`. -/
def askBidListUnmarshal (old : List AskBid) (j : Json) : Except String (List AskBid) :=
  match j with
  | .arr xs => xs.mapM (askBidUnmarshal ⟨0, 0⟩)
  | .null => .ok old
  | _ => .error "json: cannot unmarshal value into Go value of type []bitflyer.AskBid"

/-- Apply one JSON object entry to a variant `OrderBook`. -/
def applyOrderBookField (b : OrderBook) (k : String) (v : Json) : Except String OrderBook :=
  if k = "MidPrice" then
    match decIntField v b.MidPrice with
    | .error e => .error e
    | .ok n => .ok { b with MidPrice := n }
  else if k = "Bids" then
    match askBidListUnmarshal b.Bids v with
    | .error e => .error e
    | .ok xs => .ok { b with Bids := xs }
  else if k = "Asks" then
    match askBidListUnmarshal b.Asks v with
    | .error e => .error e
    | .ok xs => .ok { b with Asks := xs }
  else .ok b

/-- Merge a JSON object's entries into a variant `OrderBook`. -/
def orderBookMergeFields (b : OrderBook) : List (String × Json) → Except String OrderBook
  | [] => .ok b
  | (k, v) :: rest =>
    match applyOrderBookField b k v with
    | .error e => .error e
    | .ok b' => orderBookMergeFields b' rest

/-- Go `json.Unmarshal` into an existing variant `OrderBook`. -/
def orderBookUnmarshal (b : OrderBook) (j : Json) : Except String OrderBook :=
  match j with
  | .obj fs => orderBookMergeFields b fs
  | .null => .ok b
  | _ => .error "json: cannot unmarshal value into Go value of type bitflyer.OrderBook"

/-- Apply one JSON object entry to a variant `Balance`. -/
def applyBalanceField (b : Balance) (k : String) (v : Json) : Except String Balance :=
  if k = "CurrencyCode" then
    match decStrField v b.CurrencyCode with
    | .error e => .error e
    | .ok s => .ok { b with CurrencyCode := s }
  else if k = "Amount" then
    match decNumField v b.Amount with
    | .error e => .error e
    | .ok q => .ok { b with Amount := q }
  else if k = "Available" then
    match decNumField v b.Available with
    | .error e => .error e
    | .ok q => .ok { b with Available := q }
  else .ok b

/-- Merge a JSON object's entries into a variant `Balance`. -/
def balanceMergeFields (b : Balance) : List (String × Json) → Except String Balance
  | [] => .ok b
  | (k, v) :: rest =>
    match applyBalanceField b k v with
    | .error e => .error e
    | .ok b' => balanceMergeFields b' rest

/-- Go `json.Unmarshal` into an existing variant `Balance`. -/
def balanceUnmarshal (b : Balance) (j : Json) : Except String Balance :=
  match j with
  | .obj fs => balanceMergeFields b fs
  | .null => .ok b
  | _ => .error "json: cannot unmarshal value into Go value of type bitflyer.Balance"

/-- Variant `doRequest`: the endpoint argument is already the full URL;
the request is built with a nil body. -/
def doRequest (method endpoint : String) (hdrs : List (String × String))
    (st : TransportState) : Except BFError (Option Json) × TransportState :=
  let req : HttpRequest := ⟨method, endpoint, "", hdrs⟩
  match st.script with
  | [] => (.error (requestError "no response"), ⟨[], st.requests ++ [req]⟩)
  | r :: rest =>
    let st' : TransportState := ⟨rest, st.requests ++ [req]⟩
    match r with
    | .doError m => (.error (requestError m), st')
    | .response _ (.error m) => (.error (requestError m), st')
    | .response _ (.ok b) => (.ok b, st')

/-- Variant `doGetRequest` (unnamed variant lines 77-88): the full-URL
endpoint is handed to `headers` as the uri, with an empty body string. -/
def doGetRequest {α : Type} (api : APIClient) (dec : Json → Except String α)
    (endpoint : String) (now : Int) (st : TransportState) :
    Except BFError α × TransportState :=
  let hdrs := headers api.key api.secret "GET" endpoint "" now
  match doRequest "GET" endpoint hdrs st with
  | (.error e, st') => (.error e, st')
  | (.ok resp, st') =>
    match unmarshal dec resp with
    | .error m => (.error (.decodeFailure m), st')
    | .ok v => (.ok v, st')

/-- Variant `GetOrderBook` (unnamed variant lines 60-66): note the
endpoint is `URL + "/v1/getboard"`, host included. -/
def GetOrderBook (api : APIClient) (now : Int) (st : TransportState) :
    Except BFError OrderBook × TransportState :=
  doGetRequest api (orderBookUnmarshal ⟨0, [], []⟩) (URL ++ "/v1/getboard") now st

/-- Variant `GetBalance`: decodes a single `Balance`, endpoint
`URL + "/v1/me/getbalance"`. -/
def GetBalance (api : APIClient) (now : Int) (st : TransportState) :
    Except BFError Balance × TransportState :=
  doGetRequest api (balanceUnmarshal ⟨"", 0, 0⟩) (URL ++ "/v1/me/getbalance") now st

end Variant

/-! ## The spec's statement of the signature algorithm -/

/-- The ACCESS-SIGN algorithm exactly as the spec words it: the lowercase
hexadecimal encoding of HMAC-SHA256 keyed by the secret's bytes over the
plain concatenation `timestamp ++ method ++ path ++ body`, a pure function
of exactly these five inputs. Stated separately from `computeHmac256`
(which embeds the source) so the two can be compared. -/
def specSign (timestamp method path body secret : String) : String :=
  hexEncode (hmacSha256 (strBytes secret) (strBytes (timestamp ++ method ++ path ++ body)))

/-- Predicate `OrderMergeSpec base fs o`: the order `o` is exactly `base` merged
with the JSON object entries `fs`, field by field — a key present with a
value of the field's type decodes to that value, a key present as `null`
keeps the base value (Go decodes `null` into these field types as a
no-op), and an absent key keeps the base value. -/
def OrderMergeSpec (base : Order) (fs : List (String × Json)) (o : Order) : Prop :=
  ((∀ s, jlookup "child_order_acceptance_id" fs = some (.str s) →
      o.ChildOrderAcceptanceID = s) ∧
   (jlookup "child_order_acceptance_id" fs = some .null →
      o.ChildOrderAcceptanceID = base.ChildOrderAcceptanceID) ∧
   (jlookup "child_order_acceptance_id" fs = none →
      o.ChildOrderAcceptanceID = base.ChildOrderAcceptanceID)) ∧
  ((∀ s, jlookup "product_code" fs = some (.str s) → o.ProductCode = s) ∧
   (jlookup "product_code" fs = some .null → o.ProductCode = base.ProductCode) ∧
   (jlookup "product_code" fs = none → o.ProductCode = base.ProductCode)) ∧
  ((∀ s, jlookup "child_order_type" fs = some (.str s) → o.ChildOrderType = s) ∧
   (jlookup "child_order_type" fs = some .null → o.ChildOrderType = base.ChildOrderType) ∧
   (jlookup "child_order_type" fs = none → o.ChildOrderType = base.ChildOrderType)) ∧
  ((∀ s, jlookup "side" fs = some (.str s) → o.Side = s) ∧
   (jlookup "side" fs = some .null → o.Side = base.Side) ∧
   (jlookup "side" fs = none → o.Side = base.Side)) ∧
  ((∀ q, jlookup "price" fs = some (.num q) → o.Price = q) ∧
   (jlookup "price" fs = some .null → o.Price = base.Price) ∧
   (jlookup "price" fs = none → o.Price = base.Price)) ∧
  ((∀ q, jlookup "size" fs = some (.num q) → o.Size = q) ∧
   (jlookup "size" fs = some .null → o.Size = base.Size) ∧
   (jlookup "size" fs = none → o.Size = base.Size)) ∧
  ((∀ q, jlookup "minute_to_expire" fs = some (.num q) → o.MinuteToExpires = q.num) ∧
   (jlookup "minute_to_expire" fs = some .null →
      o.MinuteToExpires = base.MinuteToExpires) ∧
   (jlookup "minute_to_expire" fs = none →
      o.MinuteToExpires = base.MinuteToExpires)) ∧
  ((∀ s, jlookup "time_in_force" fs = some (.str s) → o.TimeInForce = s) ∧
   (jlookup "time_in_force" fs = some .null → o.TimeInForce = base.TimeInForce) ∧
   (jlookup "time_in_force" fs = none → o.TimeInForce = base.TimeInForce)) ∧
  ((∀ q, jlookup "status" fs = some (.num q) → o.Status = q.num) ∧
   (jlookup "status" fs = some .null → o.Status = base.Status) ∧
   (jlookup "status" fs = none → o.Status = base.Status)) ∧
  ((∀ s, jlookup "error_message" fs = some (.str s) → o.ErrorMessage = s) ∧
   (jlookup "error_message" fs = some .null → o.ErrorMessage = base.ErrorMessage) ∧
   (jlookup "error_message" fs = none → o.ErrorMessage = base.ErrorMessage))

/-! ## Helper lemmas -/

/-- A key not among an object's keys looks up to nothing. -/
lemma jlookup_eq_none {κ : String} {fs : List (String × Json)}
    (h : κ ∉ fs.map Prod.fst) : jlookup κ fs = none := by
  induction fs with
  | nil => rfl
  | cons hd rest ih =>
    obtain ⟨k, v⟩ := hd
    simp only [List.map_cons, List.mem_cons] at h
    push_neg at h
    rw [jlookup, if_neg (Ne.symm h.1), ih h.2]

/-- Function `doRequest` records exactly one request, whatever the scripted outcome. -/
lemma doRequest_requests (method endpoint data : String)
    (hdrs : List (String × String)) (st : TransportState) :
    (doRequest method endpoint data hdrs st).2.requests
      = st.requests ++ [⟨method, URL ++ endpoint, data, hdrs⟩] := by
  obtain ⟨script, reqs⟩ := st
  rcases script with _ | ⟨r, rest⟩
  · rfl
  · rcases r with m | ⟨s, rr⟩
    · rfl
    · rcases rr with m | b <;> rfl

/-- The state coming out of `doGetRequest` is the state out of its single
`doRequest`, whatever the decode result. -/
lemma doGetRequest_state {α : Type} (api : APIClient) (dec : Json → Except String α)
    (endpoint body : String) (now : Int) (st : TransportState) :
    (doGetRequest api dec endpoint body now st).2
      = (doRequest "GET" endpoint body
          (headers api.key api.secret "GET" endpoint body now) st).2 := by
  rw [doGetRequest]
  rcases h : doRequest "GET" endpoint body
      (headers api.key api.secret "GET" endpoint body now) st with ⟨res, st'⟩
  rcases res with e | b
  · rfl
  · simp only
    rcases unmarshal dec b with m | v <;> rfl

/-- The state coming out of `doPostRequest` is the state out of its single
`doRequest`, whatever the decode result. -/
lemma doPostRequest_state {α : Type} (api : APIClient) (dec : Json → Except String α)
    (endpoint body : String) (now : Int) (st : TransportState) :
    (doPostRequest api dec endpoint body now st).2
      = (doRequest "POST" endpoint body
          (headers api.key api.secret "POST" endpoint body now) st).2 := by
  rw [doPostRequest]
  rcases h : doRequest "POST" endpoint body
      (headers api.key api.secret "POST" endpoint body now) st with ⟨res, st'⟩
  rcases res with e | b
  · rfl
  · simp only
    rcases unmarshal dec b with m | v <;> rfl

/-- The state coming out of `NewOrder` is the state out of its single
`doPostRequest`. -/
lemma newOrder_state (api : APIClient) (order : Order) (now : Int) (st : TransportState) :
    (NewOrder api order now st).2
      = (doPostRequest api (orderUnmarshal (orderDefaults order))
          "/v1/me/sendchildorder" (Json.render (orderToJson (orderDefaults order)))
          now st).2 := by
  rw [NewOrder]
  rcases h : doPostRequest api (orderUnmarshal (orderDefaults order))
      "/v1/me/sendchildorder" (Json.render (orderToJson (orderDefaults order)))
      now st with ⟨res, st'⟩
  rcases res with e | o
  · rfl
  · simp only
    split <;> rfl

/-! ## C1 — the ACCESS-SIGN value -/

/-- C1: for every timestamp (any unix second), HTTP method, request path,
request body and secret, the ACCESS-SIGN entry produced by `headers` is
exactly the spec's signature: lowercase-hex HMAC-SHA256 keyed by the
secret's bytes over the plain concatenation
`timestamp ++ method ++ path ++ body`, a pure function of those five
inputs alone (the api key does not occur in it). -/
theorem accessSign_eq_specSign (key secret method uri body : String) (now : Int) :
    slookup "ACCESS-SIGN" (headers key secret method uri body now)
      = some (specSign (toString now) method uri body secret) := by
  simp [headers, slookup, specSign, computeHmac256, String.append_assoc]

/-! ## C9 — the headers mapping -/

/-- C9: for every key, secret, method, path, body and timestamp, the signer
output is a mapping of exactly the four entries `Content-Type`,
`ACCESS-KEY`, `ACCESS-TIMESTAMP` and `ACCESS-SIGN`, with the stated
values; `headers` is a total function, so producing it has no error
conditions. -/
theorem headers_shape (key secret method uri body : String) (now : Int) :
    (headers key secret method uri body now).map Prod.fst
        = ["Content-Type", "ACCESS-KEY", "ACCESS-TIMESTAMP", "ACCESS-SIGN"] ∧
    slookup "Content-Type" (headers key secret method uri body now)
        = some "application/json" ∧
    slookup "ACCESS-KEY" (headers key secret method uri body now) = some key ∧
    slookup "ACCESS-TIMESTAMP" (headers key secret method uri body now)
        = some (toString now) ∧
    slookup "ACCESS-SIGN" (headers key secret method uri body now)
        = some (computeHmac256 (toString now ++ method ++ uri ++ body) secret) := by
  refine ⟨?_, ?_, ?_, ?_, ?_⟩ <;> simp [headers, slookup]

/-! ## C8 — Order serialization round-trip -/

/-- C8: serializing any `Order` and decoding the result back (into any
prior `Order` value, in particular the zero value) reproduces every field
of the original unchanged. -/
theorem order_roundtrip (o base : Order) :
    orderUnmarshal base (orderToJson o) = .ok o := by
  simp [orderUnmarshal, orderToJson, orderMergeFields, applyOrderField,
        decStrField, decNumField, decIntField]

/-- Defaulting: non-positive expiry becomes `minuteToExpire`. -/
lemma orderDefaults_expiry_le {order : Order} (h : order.MinuteToExpires ≤ 0) :
    (orderDefaults order).MinuteToExpires = 525600 := by
  by_cases h2 : order.TimeInForce = "" <;>
    simp [orderDefaults, h, h2, minuteToExpire]

/-- Defaulting: positive expiry is left unchanged. -/
lemma orderDefaults_expiry_pos {order : Order} (h : 0 < order.MinuteToExpires) :
    (orderDefaults order).MinuteToExpires = order.MinuteToExpires := by
  by_cases h2 : order.TimeInForce = "" <;>
    simp [orderDefaults, not_le.mpr h, h2]

/-- Defaulting: the resulting time-in-force, by case on the caller's. -/
lemma orderDefaults_tif (order : Order) :
    (orderDefaults order).TimeInForce
      = if order.TimeInForce = "" then "GTC" else order.TimeInForce := by
  by_cases h1 : order.MinuteToExpires ≤ 0 <;> by_cases h2 : order.TimeInForce = "" <;>
    simp [orderDefaults, h1, h2, timeInForce]

/-! ## C2 — defaulting in the serialized new-order body -/

/-- C2: every `NewOrder` call hands the transport exactly one POST whose
body is the serialized defaulted order; in that serialized order, an
expiry left `≤ 0` appears as `minute_to_expire = 525600` and an empty
time-in-force as `time_in_force = "GTC"`, while an explicit positive
expiry and a non-empty time-in-force are serialized unchanged. -/
theorem newOrder_serializes_defaults (api : APIClient) (order : Order) (now : Int)
    (st : TransportState) :
    (NewOrder api order now st).2.requests
        = st.requests ++ [⟨"POST", URL ++ "/v1/me/sendchildorder",
            Json.render (orderToJson (orderDefaults order)),
            headers api.key api.secret "POST" "/v1/me/sendchildorder"
              (Json.render (orderToJson (orderDefaults order))) now⟩] ∧
    (order.MinuteToExpires ≤ 0 →
      jlookup "minute_to_expire" (orderToJson (orderDefaults order)).fields
        = some (.num 525600)) ∧
    (order.TimeInForce = "" →
      jlookup "time_in_force" (orderToJson (orderDefaults order)).fields
        = some (.str "GTC")) ∧
    (0 < order.MinuteToExpires →
      jlookup "minute_to_expire" (orderToJson (orderDefaults order)).fields
        = some (.num (order.MinuteToExpires : Rat))) ∧
    (order.TimeInForce ≠ "" →
      jlookup "time_in_force" (orderToJson (orderDefaults order)).fields
        = some (.str order.TimeInForce)) := by
  refine ⟨?_, ?_, ?_, ?_, ?_⟩
  · rw [newOrder_state, doPostRequest_state, doRequest_requests]
  · intro h
    simp [orderToJson, Json.fields, jlookup, orderDefaults_expiry_le h]
  · intro h
    simp [orderToJson, Json.fields, jlookup, orderDefaults_tif, h]
  · intro h
    simp [orderToJson, Json.fields, jlookup, orderDefaults_expiry_pos h]
  · intro h
    simp [orderToJson, Json.fields, jlookup, orderDefaults_tif, h]

/-- C2 witness: at an order with `expiry = 0, time_in_force = ""` the body
carries the defaults; at an order with `expiry = 30, time_in_force =
"FOK"` both are unchanged. -/
theorem newOrder_serializes_defaults_check :
    ((⟨"", "BTC_JPY", "LIMIT", "BUY", 300, 1, 0, "", 0, ""⟩ : Order).MinuteToExpires ≤ 0 ∧
      jlookup "minute_to_expire"
        (orderToJson (orderDefaults ⟨"", "BTC_JPY", "LIMIT", "BUY", 300, 1, 0, "", 0, ""⟩)).fields
          = some (.num 525600) ∧
      jlookup "time_in_force"
        (orderToJson (orderDefaults ⟨"", "BTC_JPY", "LIMIT", "BUY", 300, 1, 0, "", 0, ""⟩)).fields
          = some (.str "GTC")) ∧
    ((0 : Int) < (⟨"", "BTC_JPY", "LIMIT", "BUY", 300, 1, 30, "FOK", 0, ""⟩ : Order).MinuteToExpires ∧
      jlookup "minute_to_expire"
        (orderToJson (orderDefaults ⟨"", "BTC_JPY", "LIMIT", "BUY", 300, 1, 30, "FOK", 0, ""⟩)).fields
          = some (.num (((⟨"", "BTC_JPY", "LIMIT", "BUY", 300, 1, 30, "FOK", 0, ""⟩ : Order).MinuteToExpires : Int) : Rat)) ∧
      jlookup "time_in_force"
        (orderToJson (orderDefaults ⟨"", "BTC_JPY", "LIMIT", "BUY", 300, 1, 30, "FOK", 0, ""⟩)).fields
          = some (.str "FOK")) :=
  ⟨⟨by decide,
    (newOrder_serializes_defaults ⟨"k", "s"⟩ ⟨"", "BTC_JPY", "LIMIT", "BUY", 300, 1, 0, "", 0, ""⟩ 0 ⟨[], []⟩).2.1 (by decide),
    (newOrder_serializes_defaults ⟨"k", "s"⟩ ⟨"", "BTC_JPY", "LIMIT", "BUY", 300, 1, 0, "", 0, ""⟩ 0 ⟨[], []⟩).2.2.1 (by decide)⟩,
   ⟨by decide,
    (newOrder_serializes_defaults ⟨"k", "s"⟩ ⟨"", "BTC_JPY", "LIMIT", "BUY", 300, 1, 30, "FOK", 0, ""⟩ 0 ⟨[], []⟩).2.2.2.1 (by decide),
    (newOrder_serializes_defaults ⟨"k", "s"⟩ ⟨"", "BTC_JPY", "LIMIT", "BUY", 300, 1, 30, "FOK", 0, ""⟩ 0 ⟨[], []⟩).2.2.2.2 (by decide)⟩⟩

/-! ## C3 — the decoded error-message field decides success -/

/-- C3: when the round trip and decode of a `NewOrder` call succeed, a
non-empty decoded error-message field makes the call fail with an
exchange error carrying exactly that message, and an empty one lets the
decoded order be returned with no exchange error. -/
theorem newOrder_errorMessage (api : APIClient) (order : Order) (now : Int)
    (st : TransportState) (s : Nat) (j : Json) (rest : List TransportResult) (o : Order)
    (hs : st.script = .response s (.ok (some j)) :: rest)
    (hdec : orderUnmarshal (orderDefaults order) j = .ok o) :
    (o.ErrorMessage ≠ "" →
      (NewOrder api order now st).1 = .error (.exchangeFailure o.ErrorMessage)) ∧
    (o.ErrorMessage = "" → (NewOrder api order now st).1 = .ok o) := by
  obtain ⟨script, reqs⟩ := st
  simp only at hs
  subst hs
  constructor <;> intro hmsg <;>
    simp [NewOrder, doPostRequest, doRequest, unmarshal, hdec, hmsg]

/-- C3 witness: a 200-status body with `error_message: "Insufficient
funds"` makes `NewOrder` fail with exactly that exchange error. -/
theorem newOrder_errorMessage_check :
    (NewOrder ⟨"k", "s"⟩ ⟨"", "BTC_JPY", "LIMIT", "BUY", 300, 1, 0, "", 0, ""⟩ 0
        ⟨[.response 200 (.ok (some (.obj [("error_message", .str "Insufficient funds")])))], []⟩).1
      = .error (.exchangeFailure "Insufficient funds") :=
  (newOrder_errorMessage ⟨"k", "s"⟩ ⟨"", "BTC_JPY", "LIMIT", "BUY", 300, 1, 0, "", 0, ""⟩ 0
      ⟨[.response 200 (.ok (some (.obj [("error_message", .str "Insufficient funds")])))], []⟩
      200 (.obj [("error_message", .str "Insufficient funds")]) []
      ⟨"", "BTC_JPY", "LIMIT", "BUY", 300, 1, 525600, "GTC", 0, "Insufficient funds"⟩
      rfl rfl).1 (by decide)

/-- Function `doRequest` on a failed `Do` or a failed body read yields the
`requestError` wrapper around the underlying message. -/
lemma doRequest_failure (method endpoint data : String) (hdrs : List (String × String))
    (st : TransportState) (m : String) (s : Nat) (rest : List TransportResult)
    (h : st.script = .doError m :: rest ∨ st.script = .response s (.error m) :: rest) :
    (doRequest method endpoint data hdrs st).1 = .error (requestError m) := by
  obtain ⟨script, reqs⟩ := st
  simp only at h
  rcases h with h | h <;> subst h <;> rfl

/-- Function `doGetRequest` surfaces a transport failure as-is. -/
lemma doGetRequest_failure {α : Type} (api : APIClient) (dec : Json → Except String α)
    (endpoint body : String) (now : Int) (st : TransportState)
    (m : String) (s : Nat) (rest : List TransportResult)
    (h : st.script = .doError m :: rest ∨ st.script = .response s (.error m) :: rest) :
    (doGetRequest api dec endpoint body now st).1 = .error (requestError m) := by
  have hfail := doRequest_failure "GET" endpoint body
    (headers api.key api.secret "GET" endpoint body now) st m s rest h
  rw [doGetRequest]
  rcases hdr : doRequest "GET" endpoint body
      (headers api.key api.secret "GET" endpoint body now) st with ⟨res, st'⟩
  rw [hdr] at hfail
  rcases res with e | b
  · have : e = requestError m := by simpa using hfail
    subst this
    rfl
  · exact absurd hfail (by simp)

/-- Function `doPostRequest` surfaces a transport failure as-is. -/
lemma doPostRequest_failure {α : Type} (api : APIClient) (dec : Json → Except String α)
    (endpoint body : String) (now : Int) (st : TransportState)
    (m : String) (s : Nat) (rest : List TransportResult)
    (h : st.script = .doError m :: rest ∨ st.script = .response s (.error m) :: rest) :
    (doPostRequest api dec endpoint body now st).1 = .error (requestError m) := by
  have hfail := doRequest_failure "POST" endpoint body
    (headers api.key api.secret "POST" endpoint body now) st m s rest h
  rw [doPostRequest]
  rcases hdr : doRequest "POST" endpoint body
      (headers api.key api.secret "POST" endpoint body now) st with ⟨res, st'⟩
  rw [hdr] at hfail
  rcases res with e | b
  · have : e = requestError m := by simpa using hfail
    subst this
    rfl
  · exact absurd hfail (by simp)

/-- Function `NewOrder` surfaces an error of its `doPostRequest` as-is. -/
lemma newOrder_fst_of_post_error {api : APIClient} {order : Order} {now : Int}
    {st : TransportState} {e : BFError}
    (h : (doPostRequest api (orderUnmarshal (orderDefaults order))
        "/v1/me/sendchildorder" (Json.render (orderToJson (orderDefaults order)))
        now st).1 = .error e) :
    (NewOrder api order now st).1 = .error e := by
  rw [NewOrder]
  rcases hdp : doPostRequest api (orderUnmarshal (orderDefaults order))
      "/v1/me/sendchildorder" (Json.render (orderToJson (orderDefaults order)))
      now st with ⟨res, st'⟩
  rw [hdp] at h
  rcases res with e' | o
  · have : e' = e := by simpa using h
    subst this
    rfl
  · exact absurd h (by simp)

/-! ## C4 — transport failures become RequestError, no retry -/

/-- C4: when the transport fails (`Do` error) or the body read fails,
every typed call fails with the `requestError` wrapper around the
underlying message, and the transport was invoked exactly once: exactly
one request is appended to the record. -/
theorem typedCalls_transport_failure (api : APIClient) (order : Order) (now : Int)
    (st : TransportState) (m : String) (s : Nat) (rest : List TransportResult)
    (h : st.script = .doError m :: rest ∨ st.script = .response s (.error m) :: rest) :
    ((GetOrderBook api now st).1 = .error (requestError m) ∧
      ∃ r, (GetOrderBook api now st).2.requests = st.requests ++ [r]) ∧
    ((GetBalance api now st).1 = .error (requestError m) ∧
      ∃ r, (GetBalance api now st).2.requests = st.requests ++ [r]) ∧
    ((GetTicker api now st).1 = .error (requestError m) ∧
      ∃ r, (GetTicker api now st).2.requests = st.requests ++ [r]) ∧
    ((NewOrder api order now st).1 = .error (requestError m) ∧
      ∃ r, (NewOrder api order now st).2.requests = st.requests ++ [r]) := by
  refine ⟨⟨?_, ?_⟩, ⟨?_, ?_⟩, ⟨?_, ?_⟩, ⟨?_, ?_⟩⟩
  · exact doGetRequest_failure api (orderBookUnmarshal ⟨0, [], []⟩)
      "/v1/getboard" "" now st m s rest h
  · rw [GetOrderBook, doGetRequest_state, doRequest_requests]
    exact ⟨_, rfl⟩
  · exact doGetRequest_failure api (assetBalanceUnmarshal [])
      "/v1/me/getbalance" "" now st m s rest h
  · rw [GetBalance, doGetRequest_state, doRequest_requests]
    exact ⟨_, rfl⟩
  · exact doGetRequest_failure api (tickerUnmarshal ⟨"", "", 0, 0, 0, 0, 0, 0, 0, 0, 0, 0⟩)
      "/v1/getticker" "" now st m s rest h
  · rw [GetTicker, doGetRequest_state, doRequest_requests]
    exact ⟨_, rfl⟩
  · exact newOrder_fst_of_post_error (doPostRequest_failure api
      (orderUnmarshal (orderDefaults order)) "/v1/me/sendchildorder"
      (Json.render (orderToJson (orderDefaults order))) now st m s rest h)
  · rw [newOrder_state, doPostRequest_state, doRequest_requests]
    exact ⟨_, rfl⟩

/-- C4 witness: a refused connection makes each typed call fail with the
wrapped request error after exactly one transport invocation. -/
theorem typedCalls_transport_failure_check :
    ((GetOrderBook ⟨"k", "s"⟩ 0 ⟨[.doError "connection refused"], []⟩).1
        = .error (requestError "connection refused") ∧
      ∃ r, (GetOrderBook ⟨"k", "s"⟩ 0 ⟨[.doError "connection refused"], []⟩).2.requests
        = (⟨[.doError "connection refused"], []⟩ : TransportState).requests ++ [r]) ∧
    ((GetBalance ⟨"k", "s"⟩ 0 ⟨[.doError "connection refused"], []⟩).1
        = .error (requestError "connection refused") ∧
      ∃ r, (GetBalance ⟨"k", "s"⟩ 0 ⟨[.doError "connection refused"], []⟩).2.requests
        = (⟨[.doError "connection refused"], []⟩ : TransportState).requests ++ [r]) ∧
    ((GetTicker ⟨"k", "s"⟩ 0 ⟨[.doError "connection refused"], []⟩).1
        = .error (requestError "connection refused") ∧
      ∃ r, (GetTicker ⟨"k", "s"⟩ 0 ⟨[.doError "connection refused"], []⟩).2.requests
        = (⟨[.doError "connection refused"], []⟩ : TransportState).requests ++ [r]) ∧
    ((NewOrder ⟨"k", "s"⟩ ⟨"", "BTC_JPY", "LIMIT", "BUY", 300, 1, 0, "", 0, ""⟩ 0
          ⟨[.doError "connection refused"], []⟩).1
        = .error (requestError "connection refused") ∧
      ∃ r, (NewOrder ⟨"k", "s"⟩ ⟨"", "BTC_JPY", "LIMIT", "BUY", 300, 1, 0, "", 0, ""⟩ 0
          ⟨[.doError "connection refused"], []⟩).2.requests
        = (⟨[.doError "connection refused"], []⟩ : TransportState).requests ++ [r]) :=
  typedCalls_transport_failure ⟨"k", "s"⟩ ⟨"", "BTC_JPY", "LIMIT", "BUY", 300, 1, 0, "", 0, ""⟩
    0 ⟨[.doError "connection refused"], []⟩ "connection refused" 0 [] (Or.inl rfl)

/-! ## C5 — decode failures become DecodeError, decode successes return -/

/-- C5: when the HTTP round trip succeeds, a body that is not valid JSON
or does not decode into the expected shape fails the call with a decode
error carrying the decode failure, and a body that decodes is returned;
this holds for the GET path and the POST path, and so for every typed
call, each of which instantiates one of them. -/
theorem typedCalls_decode {α : Type} (api : APIClient) (dec : Json → Except String α)
    (endpoint body : String) (now : Int) (st : TransportState) (s : Nat)
    (b : Option Json) (rest : List TransportResult)
    (hs : st.script = .response s (.ok b) :: rest) :
    (b = none →
      (doGetRequest api dec endpoint body now st).1
          = .error (.decodeFailure "unexpected end of JSON input") ∧
      (doPostRequest api dec endpoint body now st).1
          = .error (.decodeFailure "unexpected end of JSON input")) ∧
    (∀ j m, b = some j → dec j = .error m →
      (doGetRequest api dec endpoint body now st).1 = .error (.decodeFailure m) ∧
      (doPostRequest api dec endpoint body now st).1 = .error (.decodeFailure m)) ∧
    (∀ j v, b = some j → dec j = .ok v →
      (doGetRequest api dec endpoint body now st).1 = .ok v ∧
      (doPostRequest api dec endpoint body now st).1 = .ok v) := by
  obtain ⟨script, reqs⟩ := st
  simp only at hs
  subst hs
  refine ⟨?_, ?_, ?_⟩
  · rintro rfl
    exact ⟨by simp [doGetRequest, doRequest, unmarshal],
           by simp [doPostRequest, doRequest, unmarshal]⟩
  · rintro j m rfl hd
    exact ⟨by simp [doGetRequest, doRequest, unmarshal, hd],
           by simp [doPostRequest, doRequest, unmarshal, hd]⟩
  · rintro j v rfl hd
    exact ⟨by simp [doGetRequest, doRequest, unmarshal, hd],
           by simp [doPostRequest, doRequest, unmarshal, hd]⟩

/-- C5 witness, on the order-book decoder: invalid body bytes, a body of
the wrong shape, and a well-shaped body. -/
theorem typedCalls_decode_check :
    (doGetRequest ⟨"k", "s"⟩ (orderBookUnmarshal ⟨0, [], []⟩) "/v1/getboard" "" 0
        ⟨[.response 200 (.ok none)], []⟩).1
      = .error (.decodeFailure "unexpected end of JSON input") ∧
    (doGetRequest ⟨"k", "s"⟩ (orderBookUnmarshal ⟨0, [], []⟩) "/v1/getboard" "" 0
        ⟨[.response 200 (.ok (some (.str "nope")))], []⟩).1
      = .error (.decodeFailure
          "json: cannot unmarshal value into Go value of type bitflyer.OrderBook") ∧
    (doGetRequest ⟨"k", "s"⟩ (orderBookUnmarshal ⟨0, [], []⟩) "/v1/getboard" "" 0
        ⟨[.response 200 (.ok (some (.obj [("mid_price", .num 5)])))], []⟩).1
      = .ok ⟨5, [], []⟩ :=
  ⟨((typedCalls_decode ⟨"k", "s"⟩ (orderBookUnmarshal ⟨0, [], []⟩) "/v1/getboard" "" 0
      ⟨[.response 200 (.ok none)], []⟩ 200 none [] rfl).1 rfl).1,
   ((typedCalls_decode ⟨"k", "s"⟩ (orderBookUnmarshal ⟨0, [], []⟩) "/v1/getboard" "" 0
      ⟨[.response 200 (.ok (some (.str "nope")))], []⟩ 200 (some (.str "nope")) [] rfl).2.1
      (.str "nope") "json: cannot unmarshal value into Go value of type bitflyer.OrderBook"
      rfl rfl).1,
   ((typedCalls_decode ⟨"k", "s"⟩ (orderBookUnmarshal ⟨0, [], []⟩) "/v1/getboard" "" 0
      ⟨[.response 200 (.ok (some (.obj [("mid_price", .num 5)])))], []⟩ 200
      (some (.obj [("mid_price", .num 5)])) [] rfl).2.2
      (.obj [("mid_price", .num 5)]) ⟨5, [], []⟩ rfl rfl).1⟩

/-! ## C10 — the HTTP status code is never inspected -/

/-- C10: the client's behaviour is independent of the response status
code — two responses differing only in status produce identical results —
and a response with any status (404 included) whose body decodes into the
expected shape is returned to the caller as a success. -/
theorem status_ignored :
    (∀ (method endpoint data : String) (hdrs : List (String × String))
        (reqs : List HttpRequest) (s₁ s₂ : Nat) (rr : Except String (Option Json))
        (rest : List TransportResult),
        doRequest method endpoint data hdrs ⟨.response s₁ rr :: rest, reqs⟩
          = doRequest method endpoint data hdrs ⟨.response s₂ rr :: rest, reqs⟩) ∧
    (∀ (α : Type) (api : APIClient) (dec : Json → Except String α)
        (endpoint body : String) (now : Int) (reqs : List HttpRequest)
        (s : Nat) (j : Json) (v : α) (rest : List TransportResult),
        dec j = .ok v →
        (doGetRequest api dec endpoint body now
            ⟨.response s (.ok (some j)) :: rest, reqs⟩).1 = .ok v ∧
        (doPostRequest api dec endpoint body now
            ⟨.response s (.ok (some j)) :: rest, reqs⟩).1 = .ok v) := by
  constructor
  · intro method endpoint data hdrs reqs s₁ s₂ rr rest
    rcases rr with m | b <;> rfl
  · intro α api dec endpoint body now reqs s j v rest hd
    exact ⟨by simp [doGetRequest, doRequest, unmarshal, hd],
           by simp [doPostRequest, doRequest, unmarshal, hd]⟩

/-- C10 witness: a 404-status response with a well-shaped body is decoded
and returned as a success. -/
theorem status_ignored_check :
    (doGetRequest ⟨"k", "s"⟩ (orderBookUnmarshal ⟨0, [], []⟩) "/v1/getboard" "" 0
        ⟨[.response 404 (.ok (some (.obj [("mid_price", .num 5)])))], []⟩).1
      = .ok ⟨5, [], []⟩ :=
  (status_ignored.2 OrderBook ⟨"k", "s"⟩ (orderBookUnmarshal ⟨0, [], []⟩) "/v1/getboard" "" 0
    [] 404 (.obj [("mid_price", .num 5)]) ⟨5, [], []⟩ [] rfl).1

/-- Variant `doRequest` records exactly one request, at the endpoint URL
as given, with a nil body. -/
lemma variant_doRequest_requests (method endpoint : String)
    (hdrs : List (String × String)) (st : TransportState) :
    (Variant.doRequest method endpoint hdrs st).2.requests
      = st.requests ++ [⟨method, endpoint, "", hdrs⟩] := by
  obtain ⟨script, reqs⟩ := st
  rcases script with _ | ⟨r, rest⟩
  · rfl
  · rcases r with m | ⟨s, rr⟩
    · rfl
    · rcases rr with m | b <;> rfl

/-- The state coming out of the variant `doGetRequest` is the state out of
its single `doRequest`. -/
lemma variant_doGetRequest_state {α : Type} (api : APIClient)
    (dec : Json → Except String α) (endpoint : String) (now : Int)
    (st : TransportState) :
    (Variant.doGetRequest api dec endpoint now st).2
      = (Variant.doRequest "GET" endpoint
          (headers api.key api.secret "GET" endpoint "" now) st).2 := by
  rw [Variant.doGetRequest]
  rcases h : Variant.doRequest "GET" endpoint
      (headers api.key api.secret "GET" endpoint "" now) st with ⟨res, st'⟩
  rcases res with e | b
  · rfl
  · simp only
    rcases unmarshal dec b with m | v <;> rfl

/-! ## C6 — what the signer is handed: path and body -/

/-- C6 counterexample: in the variant client — one of the claim's cited
sources — `GetOrderBook` hands the signer the full URL
`https://api.bitflyer.jp/v1/getboard` as the path component: the headers
attached to the recorded request are computed over a uri that includes the
host and has no leading slash, refuting the claim that for every call the
signer sees the path with the host excluded. -/
theorem variant_signer_full_url :
    (Variant.GetOrderBook ⟨"key", "secret"⟩ 0 ⟨[], []⟩).2.requests
        = [⟨"GET", URL ++ "/v1/getboard", "",
            headers "key" "secret" "GET" (URL ++ "/v1/getboard") "" 0⟩] ∧
    leadsWith "/".data (URL ++ "/v1/getboard").data = false ∧
    leadsWith URL.data (URL ++ "/v1/getboard").data = true := by
  refine ⟨?_, by decide, by decide⟩
  rw [Variant.GetOrderBook, variant_doGetRequest_state, variant_doRequest_requests]
  rfl

/-- C6 amended: in the main client every call hands the signer the request
path with its leading slash and without the host, and the bodiless GETs
hand it an empty body — but in the variant client the GET operations hand
the signer the full URL, host included (still with an empty body). -/
theorem signer_path_and_body (api : APIClient) (order : Order) (now : Int)
    (st : TransportState) :
    ((GetOrderBook api now st).2.requests
        = st.requests ++ [⟨"GET", URL ++ "/v1/getboard", "",
            headers api.key api.secret "GET" "/v1/getboard" "" now⟩]) ∧
    ((GetTicker api now st).2.requests
        = st.requests ++ [⟨"GET", URL ++ "/v1/getticker", "",
            headers api.key api.secret "GET" "/v1/getticker" "" now⟩]) ∧
    ((GetBalance api now st).2.requests
        = st.requests ++ [⟨"GET", URL ++ "/v1/me/getbalance", "",
            headers api.key api.secret "GET" "/v1/me/getbalance" "" now⟩]) ∧
    ((NewOrder api order now st).2.requests
        = st.requests ++ [⟨"POST", URL ++ "/v1/me/sendchildorder",
            Json.render (orderToJson (orderDefaults order)),
            headers api.key api.secret "POST" "/v1/me/sendchildorder"
              (Json.render (orderToJson (orderDefaults order))) now⟩]) ∧
    (leadsWith "/".data "/v1/getboard".data = true ∧
      leadsWith URL.data "/v1/getboard".data = false) ∧
    (leadsWith "/".data "/v1/getticker".data = true ∧
      leadsWith URL.data "/v1/getticker".data = false) ∧
    (leadsWith "/".data "/v1/me/getbalance".data = true ∧
      leadsWith URL.data "/v1/me/getbalance".data = false) ∧
    (leadsWith "/".data "/v1/me/sendchildorder".data = true ∧
      leadsWith URL.data "/v1/me/sendchildorder".data = false) ∧
    ((Variant.GetOrderBook api now st).2.requests
        = st.requests ++ [⟨"GET", URL ++ "/v1/getboard", "",
            headers api.key api.secret "GET" (URL ++ "/v1/getboard") "" now⟩]) ∧
    ((Variant.GetBalance api now st).2.requests
        = st.requests ++ [⟨"GET", URL ++ "/v1/me/getbalance", "",
            headers api.key api.secret "GET" (URL ++ "/v1/me/getbalance") "" now⟩]) ∧
    (leadsWith "/".data (URL ++ "/v1/getboard").data = false ∧
      leadsWith "/".data (URL ++ "/v1/me/getbalance").data = false) := by
  refine ⟨?_, ?_, ?_, ?_, by decide, by decide, by decide, by decide, ?_, ?_, by decide⟩
  · rw [GetOrderBook, doGetRequest_state, doRequest_requests]
  · rw [GetTicker, doGetRequest_state, doRequest_requests]
  · rw [GetBalance, doGetRequest_state, doRequest_requests]
  · rw [newOrder_state, doPostRequest_state, doRequest_requests]
  · rw [Variant.GetOrderBook, variant_doGetRequest_state, variant_doRequest_requests]
  · rw [Variant.GetBalance, variant_doGetRequest_state, variant_doRequest_requests]

set_option maxHeartbeats 2000000 in
/-- A successfully applied object entry changes no field other than the
one its key names. -/
lemma applyOrderField_preserve (base : Order) (k : String) (v : Json) (b' : Order)
    (h : applyOrderField base k v = .ok b') :
    (k ≠ "child_order_acceptance_id" →
      b'.ChildOrderAcceptanceID = base.ChildOrderAcceptanceID) ∧
    (k ≠ "product_code" → b'.ProductCode = base.ProductCode) ∧
    (k ≠ "child_order_type" → b'.ChildOrderType = base.ChildOrderType) ∧
    (k ≠ "side" → b'.Side = base.Side) ∧
    (k ≠ "price" → b'.Price = base.Price) ∧
    (k ≠ "size" → b'.Size = base.Size) ∧
    (k ≠ "minute_to_expire" → b'.MinuteToExpires = base.MinuteToExpires) ∧
    (k ≠ "time_in_force" → b'.TimeInForce = base.TimeInForce) ∧
    (k ≠ "status" → b'.Status = base.Status) ∧
    (k ≠ "error_message" → b'.ErrorMessage = base.ErrorMessage) := by
  by_cases h1 : k = "child_order_acceptance_id"
  · subst h1
    rcases hv : decStrField v base.ChildOrderAcceptanceID with e | w <;>
      simp [applyOrderField, hv] at h
    subst h
    refine ⟨?_, ?_, ?_, ?_, ?_, ?_, ?_, ?_, ?_, ?_⟩ <;> intro hne <;>
      first
      | rfl
      | exact absurd rfl hne
  by_cases h2 : k = "product_code"
  · subst h2
    rcases hv : decStrField v base.ProductCode with e | w <;>
      simp [applyOrderField, hv] at h
    subst h
    refine ⟨?_, ?_, ?_, ?_, ?_, ?_, ?_, ?_, ?_, ?_⟩ <;> intro hne <;>
      first
      | rfl
      | exact absurd rfl hne
  by_cases h3 : k = "child_order_type"
  · subst h3
    rcases hv : decStrField v base.ChildOrderType with e | w <;>
      simp [applyOrderField, hv] at h
    subst h
    refine ⟨?_, ?_, ?_, ?_, ?_, ?_, ?_, ?_, ?_, ?_⟩ <;> intro hne <;>
      first
      | rfl
      | exact absurd rfl hne
  by_cases h4 : k = "side"
  · subst h4
    rcases hv : decStrField v base.Side with e | w <;>
      simp [applyOrderField, hv] at h
    subst h
    refine ⟨?_, ?_, ?_, ?_, ?_, ?_, ?_, ?_, ?_, ?_⟩ <;> intro hne <;>
      first
      | rfl
      | exact absurd rfl hne
  by_cases h5 : k = "price"
  · subst h5
    rcases hv : decNumField v base.Price with e | w <;>
      simp [applyOrderField, hv] at h
    subst h
    refine ⟨?_, ?_, ?_, ?_, ?_, ?_, ?_, ?_, ?_, ?_⟩ <;> intro hne <;>
      first
      | rfl
      | exact absurd rfl hne
  by_cases h6 : k = "size"
  · subst h6
    rcases hv : decNumField v base.Size with e | w <;>
      simp [applyOrderField, hv] at h
    subst h
    refine ⟨?_, ?_, ?_, ?_, ?_, ?_, ?_, ?_, ?_, ?_⟩ <;> intro hne <;>
      first
      | rfl
      | exact absurd rfl hne
  by_cases h7 : k = "minute_to_expire"
  · subst h7
    rcases hv : decIntField v base.MinuteToExpires with e | w <;>
      simp [applyOrderField, hv] at h
    subst h
    refine ⟨?_, ?_, ?_, ?_, ?_, ?_, ?_, ?_, ?_, ?_⟩ <;> intro hne <;>
      first
      | rfl
      | exact absurd rfl hne
  by_cases h8 : k = "time_in_force"
  · subst h8
    rcases hv : decStrField v base.TimeInForce with e | w <;>
      simp [applyOrderField, hv] at h
    subst h
    refine ⟨?_, ?_, ?_, ?_, ?_, ?_, ?_, ?_, ?_, ?_⟩ <;> intro hne <;>
      first
      | rfl
      | exact absurd rfl hne
  by_cases h9 : k = "status"
  · subst h9
    rcases hv : decIntField v base.Status with e | w <;>
      simp [applyOrderField, hv] at h
    subst h
    refine ⟨?_, ?_, ?_, ?_, ?_, ?_, ?_, ?_, ?_, ?_⟩ <;> intro hne <;>
      first
      | rfl
      | exact absurd rfl hne
  by_cases h10 : k = "error_message"
  · subst h10
    rcases hv : decStrField v base.ErrorMessage with e | w <;>
      simp [applyOrderField, hv] at h
    subst h
    refine ⟨?_, ?_, ?_, ?_, ?_, ?_, ?_, ?_, ?_, ?_⟩ <;> intro hne <;>
      first
      | rfl
      | exact absurd rfl hne
  simp [applyOrderField, h1, h2, h3, h4, h5, h6, h7, h8, h9, h10] at h
  subst h
  exact ⟨fun _ => rfl, fun _ => rfl, fun _ => rfl, fun _ => rfl, fun _ => rfl,
         fun _ => rfl, fun _ => rfl, fun _ => rfl, fun _ => rfl, fun _ => rfl⟩

/-- Applying the `child_order_acceptance_id` entry sets that field from a string value and
keeps it on `null`. -/
lemma applyOrderField_step_coaid (base : Order) (v : Json) (b' : Order)
    (h : applyOrderField base "child_order_acceptance_id" v = .ok b') :
    (∀ s, v = .str s → b'.ChildOrderAcceptanceID = s) ∧
    (v = .null → b'.ChildOrderAcceptanceID = base.ChildOrderAcceptanceID) := by
  constructor
  · rintro s rfl
    simp [applyOrderField, decStrField] at h
    simp [← h]
  · rintro rfl
    simp [applyOrderField, decStrField] at h
    simp [← h]

/-- Applying the `product_code` entry sets that field from a string value and
keeps it on `null`. -/
lemma applyOrderField_step_product (base : Order) (v : Json) (b' : Order)
    (h : applyOrderField base "product_code" v = .ok b') :
    (∀ s, v = .str s → b'.ProductCode = s) ∧
    (v = .null → b'.ProductCode = base.ProductCode) := by
  constructor
  · rintro s rfl
    simp [applyOrderField, decStrField] at h
    simp [← h]
  · rintro rfl
    simp [applyOrderField, decStrField] at h
    simp [← h]

/-- Applying the `child_order_type` entry sets that field from a string value and
keeps it on `null`. -/
lemma applyOrderField_step_ordertype (base : Order) (v : Json) (b' : Order)
    (h : applyOrderField base "child_order_type" v = .ok b') :
    (∀ s, v = .str s → b'.ChildOrderType = s) ∧
    (v = .null → b'.ChildOrderType = base.ChildOrderType) := by
  constructor
  · rintro s rfl
    simp [applyOrderField, decStrField] at h
    simp [← h]
  · rintro rfl
    simp [applyOrderField, decStrField] at h
    simp [← h]

/-- Applying the `side` entry sets that field from a string value and
keeps it on `null`. -/
lemma applyOrderField_step_side (base : Order) (v : Json) (b' : Order)
    (h : applyOrderField base "side" v = .ok b') :
    (∀ s, v = .str s → b'.Side = s) ∧
    (v = .null → b'.Side = base.Side) := by
  constructor
  · rintro s rfl
    simp [applyOrderField, decStrField] at h
    simp [← h]
  · rintro rfl
    simp [applyOrderField, decStrField] at h
    simp [← h]

/-- Applying the `time_in_force` entry sets that field from a string value and
keeps it on `null`. -/
lemma applyOrderField_step_tif (base : Order) (v : Json) (b' : Order)
    (h : applyOrderField base "time_in_force" v = .ok b') :
    (∀ s, v = .str s → b'.TimeInForce = s) ∧
    (v = .null → b'.TimeInForce = base.TimeInForce) := by
  constructor
  · rintro s rfl
    simp [applyOrderField, decStrField] at h
    simp [← h]
  · rintro rfl
    simp [applyOrderField, decStrField] at h
    simp [← h]

/-- Applying the `error_message` entry sets that field from a string value and
keeps it on `null`. -/
lemma applyOrderField_step_errmsg (base : Order) (v : Json) (b' : Order)
    (h : applyOrderField base "error_message" v = .ok b') :
    (∀ s, v = .str s → b'.ErrorMessage = s) ∧
    (v = .null → b'.ErrorMessage = base.ErrorMessage) := by
  constructor
  · rintro s rfl
    simp [applyOrderField, decStrField] at h
    simp [← h]
  · rintro rfl
    simp [applyOrderField, decStrField] at h
    simp [← h]

/-- Applying the `price` entry sets that field from a number value and
keeps it on `null`. -/
lemma applyOrderField_step_price (base : Order) (v : Json) (b' : Order)
    (h : applyOrderField base "price" v = .ok b') :
    (∀ q, v = .num q → b'.Price = q) ∧
    (v = .null → b'.Price = base.Price) := by
  constructor
  · rintro q rfl
    simp [applyOrderField, decNumField] at h
    simp [← h]
  · rintro rfl
    simp [applyOrderField, decNumField] at h
    simp [← h]

/-- Applying the `size` entry sets that field from a number value and
keeps it on `null`. -/
lemma applyOrderField_step_size (base : Order) (v : Json) (b' : Order)
    (h : applyOrderField base "size" v = .ok b') :
    (∀ q, v = .num q → b'.Size = q) ∧
    (v = .null → b'.Size = base.Size) := by
  constructor
  · rintro q rfl
    simp [applyOrderField, decNumField] at h
    simp [← h]
  · rintro rfl
    simp [applyOrderField, decNumField] at h
    simp [← h]

/-- Applying the `minute_to_expire` entry sets that field from an integer number
value and keeps it on `null`. -/
lemma applyOrderField_step_expiry (base : Order) (v : Json) (b' : Order)
    (h : applyOrderField base "minute_to_expire" v = .ok b') :
    (∀ q, v = .num q → b'.MinuteToExpires = q.num) ∧
    (v = .null → b'.MinuteToExpires = base.MinuteToExpires) := by
  constructor
  · rintro q rfl
    by_cases hden : q.den = 1
    · simp [applyOrderField, decIntField, hden] at h
      simp [← h]
    · simp [applyOrderField, decIntField, hden] at h
  · rintro rfl
    simp [applyOrderField, decIntField] at h
    simp [← h]

/-- Applying the `status` entry sets that field from an integer number
value and keeps it on `null`. -/
lemma applyOrderField_step_status (base : Order) (v : Json) (b' : Order)
    (h : applyOrderField base "status" v = .ok b') :
    (∀ q, v = .num q → b'.Status = q.num) ∧
    (v = .null → b'.Status = base.Status) := by
  constructor
  · rintro q rfl
    by_cases hden : q.den = 1
    · simp [applyOrderField, decIntField, hden] at h
      simp [← h]
    · simp [applyOrderField, decIntField, hden] at h
  · rintro rfl
    simp [applyOrderField, decIntField] at h
    simp [← h]

/-- The one induction behind the merge characterization: track a single
field (projection `g`, key `κ`) through `orderMergeFields`, given that
other keys preserve it and its own key acts as `P` describes. -/
lemma merge_track {γ : Type} (g : Order → γ) (κ : String)
    (P : Json → γ → γ → Prop)
    (hpres : ∀ b k v b', k ≠ κ → applyOrderField b k v = .ok b' → g b' = g b)
    (hstep : ∀ b v b', applyOrderField b κ v = .ok b' → P v (g b) (g b'))
    (fs : List (String × Json)) :
    ∀ base o, (fs.map Prod.fst).Nodup → orderMergeFields base fs = .ok o →
      (∀ v, jlookup κ fs = some v → P v (g base) (g o)) ∧
      (jlookup κ fs = none → g o = g base) := by
  induction fs with
  | nil =>
    intro base o _ h
    rw [orderMergeFields] at h
    injection h with h
    subst h
    exact ⟨fun v hv => by simp [jlookup] at hv, fun _ => rfl⟩
  | cons hd fs' ih =>
    rintro base o hnd h
    obtain ⟨k, v⟩ := hd
    rw [orderMergeFields] at h
    rcases happ : applyOrderField base k v with e | b'
    · rw [happ] at h
      simp at h
    · rw [happ] at h
      simp only at h
      simp only [List.map_cons, List.nodup_cons] at hnd
      obtain ⟨hk, hnd'⟩ := hnd
      by_cases hkk : k = κ
      · subst hkk
        have hnone : jlookup k fs' = none := jlookup_eq_none hk
        have hgo : g o = g b' := (ih b' o hnd' h).2 hnone
        refine ⟨?_, ?_⟩
        · intro w hw
          rw [jlookup, if_pos rfl] at hw
          injection hw with hw
          subst hw
          rw [hgo]
          exact hstep base v b' happ
        · intro hw
          rw [jlookup, if_pos rfl] at hw
          exact absurd hw (by simp)
      · have hgb : g b' = g base := hpres base k v b' hkk happ
        obtain ⟨ih1, ih2⟩ := ih b' o hnd' h
        refine ⟨?_, ?_⟩
        · intro w hw
          rw [jlookup, if_neg hkk] at hw
          have hP := ih1 w hw
          rwa [hgb] at hP
        · intro hw
          rw [jlookup, if_neg hkk] at hw
          rw [ih2 hw, hgb]

/-- A `NewOrder` call that returns `.ok o` against a scripted JSON-object
body decoded `o` by merging that object onto the defaulted input. -/
lemma newOrder_ok_merge (api : APIClient) (order : Order) (now : Int)
    (sc : Nat) (fs : List (String × Json)) (rest : List TransportResult)
    (reqs : List HttpRequest) (o : Order)
    (hok : (NewOrder api order now
        ⟨.response sc (.ok (some (.obj fs))) :: rest, reqs⟩).1 = .ok o) :
    orderMergeFields (orderDefaults order) fs = .ok o := by
  rcases hm : orderMergeFields (orderDefaults order) fs with e | o'
  · simp [NewOrder, doPostRequest, doRequest, unmarshal, orderUnmarshal, hm] at hok
  · by_cases hmsg : o'.ErrorMessage = ""
    · simp [NewOrder, doPostRequest, doRequest, unmarshal, orderUnmarshal, hm, hmsg] at hok
      rw [hok]
    · simp [NewOrder, doPostRequest, doRequest, unmarshal, orderUnmarshal, hm, hmsg] at hok

/-- C7: a `NewOrder` call that reaches a successful decode of a JSON
object with distinct keys returns the caller's input after defaulting,
merged with the response: each field whose key is present with a value of
its type takes the decoded value, and each field whose key is absent
(or present as `null`, which Go decodes as a no-op for these types)
retains the defaulted caller value. -/
theorem newOrder_merges_response (api : APIClient) (order : Order) (now : Int)
    (st : TransportState) (sc : Nat) (fs : List (String × Json))
    (rest : List TransportResult) (o : Order)
    (hscript : st.script = .response sc (.ok (some (.obj fs))) :: rest)
    (hnd : (fs.map Prod.fst).Nodup)
    (hok : (NewOrder api order now st).1 = .ok o) :
    OrderMergeSpec (orderDefaults order) fs o := by
  obtain ⟨script, reqs⟩ := st
  simp only at hscript
  subst hscript
  have hmerge := newOrder_ok_merge api order now sc fs rest reqs o hok
  unfold OrderMergeSpec
  refine ⟨?_, ?_, ?_, ?_, ?_, ?_, ?_, ?_, ?_, ?_⟩
  · obtain ⟨hp, hn⟩ := merge_track Order.ChildOrderAcceptanceID "child_order_acceptance_id"
      (fun v old new => (∀ s, v = .str s → new = s) ∧ (v = .null → new = old))
      (fun b k v b' hk hap => (applyOrderField_preserve b k v b' hap).1 hk)
      (fun b v b' hap => applyOrderField_step_coaid b v b' hap)
      fs (orderDefaults order) o hnd hmerge
    exact ⟨fun s2 hx => (hp _ hx).1 s2 rfl, fun hx => (hp _ hx).2 rfl, hn⟩
  · obtain ⟨hp, hn⟩ := merge_track Order.ProductCode "product_code"
      (fun v old new => (∀ s, v = .str s → new = s) ∧ (v = .null → new = old))
      (fun b k v b' hk hap => (applyOrderField_preserve b k v b' hap).2.1 hk)
      (fun b v b' hap => applyOrderField_step_product b v b' hap)
      fs (orderDefaults order) o hnd hmerge
    exact ⟨fun s2 hx => (hp _ hx).1 s2 rfl, fun hx => (hp _ hx).2 rfl, hn⟩
  · obtain ⟨hp, hn⟩ := merge_track Order.ChildOrderType "child_order_type"
      (fun v old new => (∀ s, v = .str s → new = s) ∧ (v = .null → new = old))
      (fun b k v b' hk hap => (applyOrderField_preserve b k v b' hap).2.2.1 hk)
      (fun b v b' hap => applyOrderField_step_ordertype b v b' hap)
      fs (orderDefaults order) o hnd hmerge
    exact ⟨fun s2 hx => (hp _ hx).1 s2 rfl, fun hx => (hp _ hx).2 rfl, hn⟩
  · obtain ⟨hp, hn⟩ := merge_track Order.Side "side"
      (fun v old new => (∀ s, v = .str s → new = s) ∧ (v = .null → new = old))
      (fun b k v b' hk hap => (applyOrderField_preserve b k v b' hap).2.2.2.1 hk)
      (fun b v b' hap => applyOrderField_step_side b v b' hap)
      fs (orderDefaults order) o hnd hmerge
    exact ⟨fun s2 hx => (hp _ hx).1 s2 rfl, fun hx => (hp _ hx).2 rfl, hn⟩
  · obtain ⟨hp, hn⟩ := merge_track Order.Price "price"
      (fun v old new => (∀ q, v = .num q → new = q) ∧ (v = .null → new = old))
      (fun b k v b' hk hap => (applyOrderField_preserve b k v b' hap).2.2.2.2.1 hk)
      (fun b v b' hap => applyOrderField_step_price b v b' hap)
      fs (orderDefaults order) o hnd hmerge
    exact ⟨fun s2 hx => (hp _ hx).1 s2 rfl, fun hx => (hp _ hx).2 rfl, hn⟩
  · obtain ⟨hp, hn⟩ := merge_track Order.Size "size"
      (fun v old new => (∀ q, v = .num q → new = q) ∧ (v = .null → new = old))
      (fun b k v b' hk hap => (applyOrderField_preserve b k v b' hap).2.2.2.2.2.1 hk)
      (fun b v b' hap => applyOrderField_step_size b v b' hap)
      fs (orderDefaults order) o hnd hmerge
    exact ⟨fun s2 hx => (hp _ hx).1 s2 rfl, fun hx => (hp _ hx).2 rfl, hn⟩
  · obtain ⟨hp, hn⟩ := merge_track Order.MinuteToExpires "minute_to_expire"
      (fun v old new => (∀ q, v = .num q → new = q.num) ∧ (v = .null → new = old))
      (fun b k v b' hk hap => (applyOrderField_preserve b k v b' hap).2.2.2.2.2.2.1 hk)
      (fun b v b' hap => applyOrderField_step_expiry b v b' hap)
      fs (orderDefaults order) o hnd hmerge
    exact ⟨fun s2 hx => (hp _ hx).1 s2 rfl, fun hx => (hp _ hx).2 rfl, hn⟩
  · obtain ⟨hp, hn⟩ := merge_track Order.TimeInForce "time_in_force"
      (fun v old new => (∀ s, v = .str s → new = s) ∧ (v = .null → new = old))
      (fun b k v b' hk hap => (applyOrderField_preserve b k v b' hap).2.2.2.2.2.2.2.1 hk)
      (fun b v b' hap => applyOrderField_step_tif b v b' hap)
      fs (orderDefaults order) o hnd hmerge
    exact ⟨fun s2 hx => (hp _ hx).1 s2 rfl, fun hx => (hp _ hx).2 rfl, hn⟩
  · obtain ⟨hp, hn⟩ := merge_track Order.Status "status"
      (fun v old new => (∀ q, v = .num q → new = q.num) ∧ (v = .null → new = old))
      (fun b k v b' hk hap => (applyOrderField_preserve b k v b' hap).2.2.2.2.2.2.2.2.1 hk)
      (fun b v b' hap => applyOrderField_step_status b v b' hap)
      fs (orderDefaults order) o hnd hmerge
    exact ⟨fun s2 hx => (hp _ hx).1 s2 rfl, fun hx => (hp _ hx).2 rfl, hn⟩
  · obtain ⟨hp, hn⟩ := merge_track Order.ErrorMessage "error_message"
      (fun v old new => (∀ s, v = .str s → new = s) ∧ (v = .null → new = old))
      (fun b k v b' hk hap => (applyOrderField_preserve b k v b' hap).2.2.2.2.2.2.2.2.2 hk)
      (fun b v b' hap => applyOrderField_step_errmsg b v b' hap)
      fs (orderDefaults order) o hnd hmerge
    exact ⟨fun s2 hx => (hp _ hx).1 s2 rfl, fun hx => (hp _ hx).2 rfl, hn⟩

/-- C7 witness: a response object setting the acceptance id and the
status merges them onto the defaulted input and keeps every other field. -/
theorem newOrder_merges_response_check :
    OrderMergeSpec
      (orderDefaults ⟨"", "BTC_JPY", "LIMIT", "BUY", 300, 1, 0, "", 0, ""⟩)
      [("child_order_acceptance_id", .str "JRF-20150707-123456"), ("status", .num 1)]
      ⟨"JRF-20150707-123456", "BTC_JPY", "LIMIT", "BUY", 300, 1, 525600, "GTC", 1, ""⟩ :=
  newOrder_merges_response ⟨"k", "s"⟩ ⟨"", "BTC_JPY", "LIMIT", "BUY", 300, 1, 0, "", 0, ""⟩ 0
    ⟨[.response 200 (.ok (some (.obj [("child_order_acceptance_id",
        .str "JRF-20150707-123456"), ("status", .num 1)])))], []⟩
    200 [("child_order_acceptance_id", .str "JRF-20150707-123456"), ("status", .num 1)] []
    ⟨"JRF-20150707-123456", "BTC_JPY", "LIMIT", "BUY", 300, 1, 525600, "GTC", 1, ""⟩
    rfl (by decide) rfl

end Bitflyer
